import Mathlib

/-!
Verification of the streaming-transcription session manager (`src/app.py`,
class `TranscriptionManager`).

The mutable attributes of the Python object become the fields of
`ManagerState`; each callback (`on_message`, `on_open`, `on_error`,
`on_close`) and method (`start_transcription`, `save_wav_file`) becomes a
pure state-transformer.  Wall-clock timestamps (`time.time()`) are passed
in explicitly as rationals; outcomes of external, fallible operations
(opening the audio device, creating/writing the WAV file) are passed in as
explicit result values.  Incoming WebSocket payloads are modelled by
`WsMessage`, the result of `json.loads` plus the `type` dispatch: a parse
failure is `invalid`, a JSON object with an unrecognised `type` is `other`,
and the optional fields of a `Turn` are `Option`s, mirroring
`data.get('transcript', '')` and `data.get('turn_is_formatted', False)`.
-/

/-- One raw PCM audio chunk (a byte string), modelled as a list of bytes. -/
abbrev Chunk := List Nat

/-- The state of `TranscriptionManager` (src/app.py lines 36-53): the merger
fields `committed_text`, `partial_text`, `transcript_text`,
`last_final_time`, the recording buffer `recorded_frames`, the cancellation
flag `stop_event`, the UI fields `status` and `is_running`, and booleans
recording which resources/threads exist (`self.stream` is open, the
`WebSocketApp` was created, the receive thread was started, the capture
thread was started). -/
structure ManagerState where
  committed_text : String
  partial_text : String
  transcript_text : String
  last_final_time : ℚ
  recorded_frames : List Chunk
  stop_event : Bool
  status : String
  is_running : Bool
  stream_open : Bool
  ws_app_created : Bool
  ws_thread_started : Bool
  audio_thread_started : Bool
  deriving Repr, DecidableEq

/-- The state built by `TranscriptionManager.__init__` (src/app.py 36-53). -/
def initState : ManagerState :=
  { committed_text := ""
    partial_text := ""
    transcript_text := ""
    last_final_time := 0
    recorded_frames := []
    stop_event := false
    status := "Detenido"
    is_running := false
    stream_open := false
    ws_app_created := false
    ws_thread_started := false
    audio_thread_started := false }

/-- An incoming WebSocket text payload after `json.loads` and the `type`
dispatch of `on_message` (src/app.py 83-125).  `invalid` is a payload that
is not valid JSON (`json.loads` raises); `other` is valid JSON whose `type`
is missing or unrecognised.  The `Turn` fields are optional: `none` means
the key is absent from the JSON object. -/
inductive WsMessage where
  | invalid : WsMessage
  | begin (id : Option String) : WsMessage
  | turn (transcript : Option String) (turn_is_formatted : Option Bool) : WsMessage
  | termination : WsMessage
  | other (t : Option String) : WsMessage
  deriving Repr, DecidableEq

/-- `TranscriptionManager.on_message` (src/app.py 83-125) at wall-clock time
`now`.  A `Begin` records `now` as `last_final_time`.  A `Turn` reads
`transcript` (default `""`) and `turn_is_formatted` (default `false`); a
final turn with non-empty text appends separator-plus-text to
`committed_text` (no separator when `committed_text` is empty, a paragraph
break `"\n\n"` when more than 2 seconds passed since the last committed
final, a space otherwise) and updates `last_final_time`; every final turn
clears `partial_text`; a non-final turn replaces `partial_text`; finally
`transcript_text` is rebuilt from the new committed/partial pair.
`Termination`, unknown types and unparseable payloads leave the state
untouched (the exception from `json.loads` is caught and logged). -/
def on_message (now : ℚ) (msg : WsMessage) (st : ManagerState) : ManagerState :=
  match msg with
  | .invalid => st
  | .begin _ => { st with last_final_time := now }
  | .turn tr fmt =>
      let transcript := tr.getD ""
      let is_final := fmt.getD false
      let st1 :=
        if is_final then
          let st0 :=
            if transcript ≠ "" then
              let silence_duration := now - st.last_final_time
              let separator : String :=
                if st.committed_text = "" then ""
                else if silence_duration > 2 then "\n\n"
                else " "
              { st with
                  committed_text := st.committed_text ++ separator ++ transcript
                  last_final_time := now }
            else st
          { st0 with partial_text := "" }
        else { st with partial_text := transcript }
      let separator_partial : String :=
        if st1.committed_text ≠ "" ∧ st1.partial_text ≠ "" then " " else ""
      { st1 with
          transcript_text := st1.committed_text ++ separator_partial ++ st1.partial_text }
  | .termination => st
  | .other _ => st

/-- One iteration of the capture loop's buffering step (src/app.py 69-70):
under `recording_lock`, append the chunk just read to `recorded_frames`. -/
def record_chunk (c : Chunk) (st : ManagerState) : ManagerState :=
  { st with recorded_frames := st.recorded_frames ++ [c] }

/-- `TranscriptionManager.save_wav_file` (src/app.py 137-157).  If the
buffer is empty it returns immediately, writing nothing.  Otherwise it
attempts to create the WAV file and write the concatenation of all buffered
chunks; `write_ok` is the outcome of that external I/O.  On success the
joined bytes are written (returned as `some content`) and the buffer is
reset to `[]`; on failure the exception is caught and logged, and — the
reset statement sitting inside the `try` block, after the write — the
buffer is left as it was.  The function never propagates an exception.
Returns the final state paired with the bytes successfully written, if any. -/
def save_wav_file (write_ok : Bool) (st : ManagerState) : ManagerState × Option Chunk :=
  if st.recorded_frames = [] then (st, none)
  else if write_ok then
    ({ st with recorded_frames := [] }, some st.recorded_frames.flatten)
  else (st, none)

/-- `TranscriptionManager.on_open` (src/app.py 55-81): set the status and
start the audio-capture thread. -/
def on_open (st : ManagerState) : ManagerState :=
  { st with status := "Conectado. Grabando...", audio_thread_started := true }

/-- `TranscriptionManager.on_error` (src/app.py 127-129): surface the error
text in the status and set the cancellation flag. -/
def on_error (err : String) (st : ManagerState) : ManagerState :=
  { st with status := "Error: " ++ err, stop_event := true }

/-- `TranscriptionManager.on_close` (src/app.py 131-135): finalize the audio
buffer, then mark the session stopped. -/
def on_close (write_ok : Bool) (st : ManagerState) : ManagerState :=
  let st1 := (save_wav_file write_ok st).1
  { st1 with is_running := false, status := "Desconectado. Archivo guardado." }

/-- `TranscriptionManager.start_transcription` (src/app.py 159-200) at
wall-clock time `now`.  `device` is the outcome of
`self.audio.open(...)`: `.ok ()` when the microphone opened, `.error e`
when it raised with message `e`.  A running session makes the call a no-op.
Otherwise the cancellation flag, merger state and audio buffer are reset
and `last_final_time` is set to `now` before the device is opened; on
device failure the status becomes the microphone-error message,
`is_running` is reset to `false` and the method returns without creating
the `WebSocketApp` or starting any thread; on success the `WebSocketApp`
is created and its `run_forever` thread started. -/
def start_transcription (now : ℚ) (device : Except String Unit)
    (st : ManagerState) : ManagerState :=
  if st.is_running then st
  else
    let st1 : ManagerState :=
      { st with
          stop_event := false
          committed_text := ""
          partial_text := ""
          transcript_text := ""
          recorded_frames := []
          last_final_time := now
          is_running := true
          status := "Iniciando conexión..." }
    match device with
    | .error e => { st1 with status := "Error micrófono: " ++ e, is_running := false }
    | .ok _ => { st1 with stream_open := true, ws_app_created := true, ws_thread_started := true }

/-- A state left behind by an earlier session: transcript committed, a
draft pending, audio buffered, the cancellation flag set, not running.
Used to exercise `start_transcription` on stale state. -/
def previousSessionState : ManagerState :=
  { initState with
      committed_text := "old committed"
      partial_text := "old draft"
      transcript_text := "old committed old draft"
      recorded_frames := [[7, 8]]
      stop_event := true
      status := "Desconectado. Archivo guardado." }

/-- The separator the spec prescribes for a non-empty final committed at
time `now`: nothing when nothing is committed yet, a paragraph break after
more than 2 seconds of silence, a single space otherwise.  Stated from the
spec's words, to be compared with the source's `on_message`. -/
def claimSeparator (committed : String) (now lastFinalAt : ℚ) : String :=
  if committed = "" then ""
  else if now - lastFinalAt > 2 then "\n\n"
  else " "

/-- The display text the spec prescribes as a pure function of the
committed/partial pair: both non-empty joins them with a space, otherwise
whichever is non-empty (empty when both are).  Stated from the spec's
words, to be compared with the `transcript_text` the source maintains. -/
def displayText (committed partialT : String) : String :=
  if committed ≠ "" ∧ partialT ≠ "" then committed ++ " " ++ partialT
  else if committed ≠ "" then committed
  else partialT

/-! ## Theorems about the claims -/

/-- Helper: the string `on_message` stores into `transcript_text` — the
committed text, a space when both committed and partial are non-empty, and
the partial text — coincides with the spec's `displayText` function. -/
theorem transcript_join_eq_displayText (c p : String) :
    c ++ (if c ≠ "" ∧ p ≠ "" then " " else "") ++ p = displayText c p := by
  by_cases hc : c = "" <;> by_cases hp : p = "" <;> simp [displayText, hc, hp]

/-- C1: a Final turn with non-empty `text` arriving at time `now` appends to
`committed_text` exactly `separator ++ text`, where the separator is `""`
when `committed_text` is empty, `"\n\n"` when `now - last_final_time`
exceeds 2 seconds, and `" "` otherwise, and then sets
`last_final_time := now`; in particular `Final "hello"` at t=0 followed by
`Final "world"` at t=1 commits `"hello world"`, while `Final "world"` at
t=3 commits `"hello\n\nworld"`. -/
theorem final_turn_commits_separator_and_text (st : ManagerState) (text : String)
    (now : ℚ) (h : text ≠ "") :
    (on_message now (.turn (some text) (some true)) st).committed_text =
      st.committed_text ++ claimSeparator st.committed_text now st.last_final_time ++ text
    ∧ (on_message now (.turn (some text) (some true)) st).last_final_time = now
    ∧ (on_message 1 (.turn (some "world") (some true))
        (on_message 0 (.turn (some "hello") (some true)) initState)).committed_text
        = "hello world"
    ∧ (on_message 3 (.turn (some "world") (some true))
        (on_message 0 (.turn (some "hello") (some true)) initState)).committed_text
        = "hello\n\nworld" := by
  have hw : ("world" : String) ≠ "" := by decide
  have hh : ("hello" : String) ≠ "" := by decide
  refine ⟨?_, ?_, ?_, ?_⟩
  · simp [on_message, claimSeparator, h]
  · simp [on_message, h]
  · norm_num [on_message, initState, hw, hh]
    decide
  · norm_num [on_message, initState, hw, hh]
    decide

/-- Witness for C1 at the concrete input `st := initState`, `text := "hi"`,
`now := 0`. -/
theorem final_turn_commits_separator_and_text_witness :
    ("hi" : String) ≠ ""
    ∧ ((on_message 0 (.turn (some "hi") (some true)) initState).committed_text =
      initState.committed_text
        ++ claimSeparator initState.committed_text 0 initState.last_final_time ++ "hi"
    ∧ (on_message 0 (.turn (some "hi") (some true)) initState).last_final_time = 0
    ∧ (on_message 1 (.turn (some "world") (some true))
        (on_message 0 (.turn (some "hello") (some true)) initState)).committed_text
        = "hello world"
    ∧ (on_message 3 (.turn (some "world") (some true))
        (on_message 0 (.turn (some "hello") (some true)) initState)).committed_text
        = "hello\n\nworld") :=
  ⟨by decide, final_turn_commits_separator_and_text initState "hi" 0 (by decide)⟩

/-- C2: a Final turn with empty text only clears `partial_text`;
`committed_text` and `last_final_time` are untouched, so in the sequence
`Final "hello"` at t=0, `Final ""` at t=1/2, `Final "world"` at t=1 the
empty final does not reset the silence clock and the result is
`"hello world"` with a space separator. -/
theorem empty_final_clears_partial_only (st : ManagerState) (now : ℚ) :
    (on_message now (.turn (some "") (some true)) st).partial_text = ""
    ∧ (on_message now (.turn (some "") (some true)) st).committed_text = st.committed_text
    ∧ (on_message now (.turn (some "") (some true)) st).last_final_time = st.last_final_time
    ∧ (on_message 1 (.turn (some "world") (some true))
        (on_message (1/2) (.turn (some "") (some true))
          (on_message 0 (.turn (some "hello") (some true)) initState))).committed_text
        = "hello world" := by
  have hw : ("world" : String) ≠ "" := by decide
  have hh : ("hello" : String) ≠ "" := by decide
  refine ⟨?_, ?_, ?_, ?_⟩
  · simp [on_message]
  · simp [on_message]
  · simp [on_message]
  · norm_num [on_message, initState, hw, hh]
    decide

/-- C3: `committed_text` is append-only — every message processed by
`on_message` (any kind, any text, any timestamp) extends it by some suffix,
never rewrites or truncates it — and the next `start_transcription` on a
non-running session resets it to empty. -/
theorem committed_text_append_only (st : ManagerState) (now now2 : ℚ)
    (msg : WsMessage) (device : Except String Unit) :
    (∃ suffix, (on_message now msg st).committed_text = st.committed_text ++ suffix)
    ∧ (start_transcription now2 device { st with is_running := false }).committed_text = "" := by
  constructor
  · cases msg with
    | invalid => exact ⟨"", by simp [on_message]⟩
    | begin id => exact ⟨"", by simp [on_message]⟩
    | termination => exact ⟨"", by simp [on_message]⟩
    | other t => exact ⟨"", by simp [on_message]⟩
    | turn tr fmt =>
        by_cases hf : fmt.getD false = true
        · by_cases ht : tr.getD "" = ""
          · exact ⟨"", by simp [on_message, hf, ht]⟩
          · refine ⟨claimSeparator st.committed_text now st.last_final_time ++ tr.getD "", ?_⟩
            simp [on_message, claimSeparator, hf, ht, String.append_assoc]
        · exact ⟨"", by simp [on_message, hf]⟩
  · cases device <;> simp [start_transcription]

/-- C4: after every processed Turn event the stored `transcript_text`
equals the spec's `displayText` of the new `(committed_text, partial_text)`
pair — both non-empty joined with one space, otherwise whichever is
non-empty, empty when both are. -/
theorem turn_rebuilds_transcript_text (st : ManagerState) (now : ℚ)
    (tr : Option String) (fmt : Option Bool) :
    (on_message now (.turn tr fmt) st).transcript_text =
      displayText (on_message now (.turn tr fmt) st).committed_text
        (on_message now (.turn tr fmt) st).partial_text :=
  transcript_join_eq_displayText _ _

/-- C5, counterexample: with one buffered chunk and a failing file
creation/write, `save_wav_file` returns with the buffer still non-empty —
the claim that the buffer is nevertheless cleared is false, because the
reset statement sits inside the `try` block after the write
(src/app.py 153-155) and is skipped when the exception is raised. -/
theorem save_wav_failure_keeps_buffer_counterexample :
    (save_wav_file false { initState with recorded_frames := [[1]] }).1.recorded_frames
      ≠ [] := by
  decide

/-- C5, amended: if file creation or writing fails during finalization, the
error is logged and `save_wav_file` returns without raising, but the
in-memory buffer is NOT cleared — the state is returned unchanged and
nothing is written; the buffer is cleared only when the write succeeds. -/
theorem save_wav_failure_keeps_buffer (st : ManagerState) :
    (save_wav_file false st).1 = st ∧ (save_wav_file false st).2 = none
    ∧ (save_wav_file true st).1.recorded_frames = [] := by
  by_cases h : st.recorded_frames = [] <;> simp [save_wav_file, h]

/-- C6: when the audio device fails to open during start, the session's
status becomes the microphone-error message, it is left not running, and no
concurrent activity begins: the capture-thread, receive-thread,
WebSocketApp and open-stream indicators are exactly as they were (all
`false` from a fresh state, as the witness shows). -/
theorem device_failure_fails_start_without_activity (st : ManagerState)
    (now : ℚ) (e : String) (h : st.is_running = false) :
    (start_transcription now (.error e) st).status = "Error micrófono: " ++ e
    ∧ (start_transcription now (.error e) st).is_running = false
    ∧ (start_transcription now (.error e) st).audio_thread_started = st.audio_thread_started
    ∧ (start_transcription now (.error e) st).ws_thread_started = st.ws_thread_started
    ∧ (start_transcription now (.error e) st).ws_app_created = st.ws_app_created
    ∧ (start_transcription now (.error e) st).stream_open = st.stream_open := by
  simp [start_transcription, h]

/-- Witness for C6 at the concrete input `st := initState`, `now := 0`,
`e := "boom"`. -/
theorem device_failure_fails_start_without_activity_witness :
    initState.is_running = false
    ∧ ((start_transcription 0 (.error "boom") initState).status = "Error micrófono: " ++ "boom"
    ∧ (start_transcription 0 (.error "boom") initState).is_running = false
    ∧ (start_transcription 0 (.error "boom") initState).audio_thread_started
        = initState.audio_thread_started
    ∧ (start_transcription 0 (.error "boom") initState).ws_thread_started
        = initState.ws_thread_started
    ∧ (start_transcription 0 (.error "boom") initState).ws_app_created
        = initState.ws_app_created
    ∧ (start_transcription 0 (.error "boom") initState).stream_open
        = initState.stream_open) :=
  ⟨rfl, device_failure_fails_start_without_activity initState 0 "boom" rfl⟩

/-- C7: an unparseable payload or a valid JSON payload of unknown type is
ignored: `on_message` returns the state unchanged — in particular the
merger fields, `is_running` and `status` keep their values and the session
is not terminated. -/
theorem malformed_message_is_ignored (st : ManagerState) (now : ℚ) (t : Option String) :
    on_message now .invalid st = st ∧ on_message now (.other t) st = st :=
  ⟨rfl, rfl⟩

/-- C8: starting from an empty recorder, appending `c1` then `c2` and
finalizing writes exactly `c1 ++ c2` in append order and leaves the buffer
empty; finalizing again on the now-empty recorder writes nothing and
changes nothing. -/
theorem audio_recorder_round_trip (st : ManagerState) (c1 c2 : Chunk)
    (h : st.recorded_frames = []) :
    (save_wav_file true (record_chunk c2 (record_chunk c1 st))).2 = some (c1 ++ c2)
    ∧ (save_wav_file true (record_chunk c2 (record_chunk c1 st))).1.recorded_frames = []
    ∧ save_wav_file true (save_wav_file true (record_chunk c2 (record_chunk c1 st))).1
        = ((save_wav_file true (record_chunk c2 (record_chunk c1 st))).1, none) := by
  refine ⟨?_, ?_, ?_⟩ <;> simp [record_chunk, save_wav_file, h]

/-- Witness for C8 at the concrete input `st := initState`, `c1 := [1]`,
`c2 := [2]`. -/
theorem audio_recorder_round_trip_witness :
    initState.recorded_frames = []
    ∧ ((save_wav_file true (record_chunk [2] (record_chunk [1] initState))).2
        = some ([1] ++ [2])
    ∧ (save_wav_file true (record_chunk [2] (record_chunk [1] initState))).1.recorded_frames
        = []
    ∧ save_wav_file true (save_wav_file true (record_chunk [2] (record_chunk [1] initState))).1
        = ((save_wav_file true (record_chunk [2] (record_chunk [1] initState))).1, none)) :=
  ⟨rfl, audio_recorder_round_trip initState [1] [2] rfl⟩

/-- C9: a Turn payload's missing fields default — `transcript` to `""` and
`turn_is_formatted` to `false` — so processing any Turn equals processing
it with the defaults filled in; a Turn carrying neither field acts as a
Partial with empty text: `partial_text` becomes `""` while
`committed_text` and `last_final_time` are unchanged, and no error is
raised (the function is total). -/
theorem turn_missing_fields_default (st : ManagerState) (now : ℚ)
    (tr : Option String) (fmt : Option Bool) :
    on_message now (.turn tr fmt) st =
      on_message now (.turn (some (tr.getD "")) (some (fmt.getD false))) st
    ∧ (on_message now (.turn none none) st).partial_text = ""
    ∧ (on_message now (.turn none none) st).committed_text = st.committed_text
    ∧ (on_message now (.turn none none) st).last_final_time = st.last_final_time := by
  refine ⟨?_, ?_, ?_, ?_⟩
  · cases tr <;> cases fmt <;> rfl
  · simp [on_message]
  · simp [on_message]
  · simp [on_message]

/-- C10: a start on a non-running session that fails at the audio device
has already discarded the previous session's transcript: committed, partial
and display text are empty, the audio buffer is empty and the cancellation
flag is cleared when the failed start returns, with the session left not
running. -/
theorem failed_start_discards_previous_transcript (st : ManagerState)
    (now : ℚ) (e : String) (h : st.is_running = false) :
    (start_transcription now (.error e) st).committed_text = ""
    ∧ (start_transcription now (.error e) st).partial_text = ""
    ∧ (start_transcription now (.error e) st).transcript_text = ""
    ∧ (start_transcription now (.error e) st).recorded_frames = []
    ∧ (start_transcription now (.error e) st).stop_event = false
    ∧ (start_transcription now (.error e) st).is_running = false := by
  simp [start_transcription, h]

/-- Witness for C10 at the concrete input `st := previousSessionState`
(stale transcript, buffered audio, cancellation flag set), `now := 5`,
`e := "dead"`. -/
theorem failed_start_discards_previous_transcript_witness :
    previousSessionState.is_running = false
    ∧ ((start_transcription 5 (.error "dead") previousSessionState).committed_text = ""
    ∧ (start_transcription 5 (.error "dead") previousSessionState).partial_text = ""
    ∧ (start_transcription 5 (.error "dead") previousSessionState).transcript_text = ""
    ∧ (start_transcription 5 (.error "dead") previousSessionState).recorded_frames = []
    ∧ (start_transcription 5 (.error "dead") previousSessionState).stop_event = false
    ∧ (start_transcription 5 (.error "dead") previousSessionState).is_running = false) :=
  ⟨rfl, failed_start_discards_previous_transcript previousSessionState 5 "dead" rfl⟩
